import Mathlib

/-!
Verification development for the serverless submission processor
(src/app.py).  The Python module is a single AWS Lambda handler that
fetches a submitted file, validates it is a zip archive, uploads it to
object storage, sends a status email and records the outcome in a
tracking table.  External collaborators (HTTP fetch, object storage,
email provider, tracking store) are modelled by a fault-injection
environment: each call site consults the environment to learn whether
the corresponding library call returns normally or raises.
-/

/-- The JSON-decoded SNS message.  Every field is optional: a missing
key makes the corresponding dictionary access raise KeyError. -/
structure Msg where
  submission_url : Option String
  user_email : Option String
  user_first_name : Option String
  user_last_name : Option String
  assignment_id : Option String
  submission_count : Option Nat
  total_attempts : Option Nat
  assignment_name : Option String
deriving DecidableEq

/-- The eight extracted fields, once all keys are present
(src/app.py lines 120-127). -/
structure Fields where
  submission_url : String
  user_email : String
  user_first_name : String
  user_last_name : String
  assignment_id : String
  submission_count : Nat
  total_attempts : Nat
  assignment_name : String
deriving DecidableEq

/-- The result of the requests.get call when it returns: an HTTP status
code, the body bytes, and whether zipfile.is_zipfile accepts the body. -/
structure Response where
  status_code : Nat
  content : String
  isZip : Bool
deriving DecidableEq

/-- Fault-injection environment for the external collaborators.
fetch = none means requests.get raises a transport fault; sendOk n and
putOk n tell whether the n-th sg.send, resp. table.put_item, call of
the invocation returns normally (false = the library call raises). -/
structure World where
  fetch : Option Response
  uploadOk : Bool
  sendOk : Nat → Bool
  putOk : Nat → Bool
  bucket : String

/-- One row written to the DynamoDB tracking table
(src/app.py lines 41-49). -/
structure TrackingItem where
  id : String
  email : String
  status : String
  assignment_id : String
  submission_count : Nat
deriving DecidableEq

/-- One attempted email (one sg.send call, src/app.py line 109). -/
structure EmailMsg where
  to_email : String
  subject : String
  content : String
deriving DecidableEq

/-- Observable effects of one invocation, in order of occurrence,
together with the call counters used to index sendOk / putOk. -/
structure Trace where
  fetches : List String
  uploads : List (String × String)
  emails : List EmailMsg
  tracks : List TrackingItem
  sendIdx : Nat
  putIdx : Nat
deriving DecidableEq

def Trace.empty : Trace := ⟨[], [], [], [], 0, 0⟩

/-- Python str(None) prints as the four characters None; optional
values interpolated into f-strings go through this rendering. -/
def pyStr (o : Option String) : String := o.getD ("None")

/-- Characters of the last slash-separated segment; seg accumulates the
current segment in reverse. -/
def lastSegment : List Char → List Char → List Char
  | [], seg => seg.reverse
  | c :: cs, seg => if c = '/' then lastSegment cs [] else lastSegment cs (c :: seg)

/-- os.path.basename for forward-slash URLs: the part after the last
slash (src/app.py line 131). -/
def basename (p : String) : String := String.mk (lastSegment p.data [])

def bucket_base_url : String := "https://storage.cloud.google.com"

/-- The composite tracking key f-string of src/app.py line 43. -/
def trackingKey (email assignment_id : String) (submission_count : Nat) : String :=
  email ++ "__" ++ assignment_id ++ "__" ++ toString submission_count

/-- upload_blob (src/app.py lines 29-36): records the blob write when
the storage call returns, otherwise re-raises. -/
def upload_blob (w : World) (s : Trace) (source_content destination_path : String) :
    Trace × Bool :=
  if w.uploadOk then
    ({ s with uploads := s.uploads ++ [(destination_path, source_content)] }, true)
  else (s, false)

/-- update_email_tracking (src/app.py lines 39-53): a put_item on the
tracking table; on a fault it logs and re-raises, and nothing is
written. -/
def update_email_tracking (w : World) (s : Trace)
    (email status assignment_id : String) (submission_count : Nat) : Trace × Bool :=
  let i := s.putIdx
  let s1 : Trace := { s with putIdx := i + 1 }
  if w.putOk i then
    ({ s1 with tracks := s1.tracks ++
        [⟨trackingKey email assignment_id submission_count,
          email, status, assignment_id, submission_count⟩] }, true)
  else (s1, false)

/-- The success email body of src/app.py lines 73-82.  The attempt
fraction is kept as one bracketed chunk of the concatenation. -/
def successContent (ufn uln aname : String) (file_name file_url : Option String)
    (surl : String) (sc ta : Nat) : String :=
  ("Hello " ++ ufn ++ " " ++ uln ++ ",\n" ++
   "Your submission for Assignment " ++ aname ++ " has been successfully uploaded.\n" ++
   "Your submission details are as follows:\n" ++
   "- Assignment Name: " ++ aname ++ "\n" ++
   "- File Name: " ++ pyStr file_name ++ "\n" ++
   "- Submission Attempt: ") ++
  (toString sc ++ "/" ++ toString ta) ++
  ("\n" ++ "- Submission URL: " ++ surl ++ "\n" ++
   "You can download your submission at: " ++ pyStr file_url)

/-- The failure email body of src/app.py lines 86-99.  The failure
reason is kept as one chunk of the concatenation. -/
def failureContent (ufn uln aname : String) (failure_reason file_name : Option String)
    (surl : String) (sc ta : Nat) : String :=
  ("Hello " ++ ufn ++ " " ++ uln ++ ",\n\n" ++
   "There was an issue with your submission for Assignment - " ++ aname ++ ".\n\n" ++
   "The following issue was encountered:\n" ++
   "- ") ++
  pyStr failure_reason ++
  ("\n\n" ++
   "Your submission details are as follows:\n" ++
   "- Assignment Name: " ++ aname ++ "\n" ++
   "- File Name: " ++ pyStr file_name ++ "\n" ++
   "- Submission Attempt: " ++ toString sc ++ "/" ++ toString ta ++ "\n" ++
   "- Submission URL: " ++ surl ++ "\n\n" ++
   "To successfully submit your assignment, please ensure that:\n" ++
   "- The file is in the correct format (.zip).\n" ++
   "- The submission is made before the due date.")

def successSubject (aname : String) : String :=
  "Assignment Submission Confirmation - " ++ aname

def errorSubject (aname : String) : String :=
  "Assignment Submission Error - " ++ aname

/-- send_email (src/app.py lines 56-114): composes the message, records
the sg.send attempt, and writes a tracking row whose status depends on
the send outcome.  A Sent write that faults is caught and retried as a
Failed write; a fault of that second write propagates (Bool false). -/
def send_email (w : World) (s : Trace)
    (to_email user_first_name user_last_name submission_url assignment_id : String)
    (file_url file_name : Option String) (status : String)
    (failure_reason : Option String)
    (submission_count total_attempts : Nat) (assignment_name : String) :
    Trace × Bool :=
  let subject := if status = "success" then successSubject assignment_name
    else errorSubject assignment_name
  let content := if status = "success" then
      successContent user_first_name user_last_name assignment_name
        file_name file_url submission_url submission_count total_attempts
    else
      failureContent user_first_name user_last_name assignment_name
        failure_reason file_name submission_url submission_count total_attempts
  let i := s.sendIdx
  let s1 : Trace := { s with
    emails := s.emails ++ [⟨to_email, subject, content⟩], sendIdx := i + 1 }
  if w.sendOk i then
    let r := update_email_tracking w s1 to_email "Sent" assignment_id submission_count
    if r.2 then (r.1, true)
    else update_email_tracking w r.1 to_email "Failed" assignment_id submission_count
  else
    update_email_tracking w s1 to_email "Failed" assignment_id submission_count

/-- The format-failure reason f-string of src/app.py line 166.  The
fixed tail after the file name is one chunk of the concatenation. -/
def formatFailureReason (aname fn : String) : String :=
  ("Your submission for Assignment (" ++ aname ++
   ") failed because the submitted file ('" ++ fn) ++
  ("') is not a .zip file. Please submit the file in .zip format.")

/-- The download-failure reason f-string of src/app.py line 184. -/
def downloadFailureReason (aname : String) : String :=
  "There was an error downloading the Assignment (" ++ aname ++ ") and processing it."

def exceptionFailureReason : String := "There was an error processing your submission."

/-- The except block of src/app.py lines 201-217: a generic failure
email followed by a Failed tracking write.  A fault raised by either
step propagates out of lambda_handler (result none). -/
def handleException (w : World) (s : Trace) (f : Fields) (message : Msg) :
    Trace × Option Msg :=
  let r := send_email w s f.user_email f.user_first_name f.user_last_name
    f.submission_url f.assignment_id none none "failure"
    (some exceptionFailureReason) f.submission_count f.total_attempts
    f.assignment_name
  if r.2 then
    let r2 := update_email_tracking w r.1 f.user_email "Failed"
      f.assignment_id f.submission_count
    if r2.2 then (r2.1, some message) else (r2.1, none)
  else (r.1, none)

/-- The email composed by send_email for a non-success status, with the
recipient and subject the handler passes for the event fields f. -/
def failureEmail (f : Fields) (failure_reason file_name : Option String) : EmailMsg :=
  ⟨f.user_email, errorSubject f.assignment_name,
   failureContent f.user_first_name f.user_last_name f.assignment_name
     failure_reason file_name f.submission_url f.submission_count f.total_attempts⟩

/-- The email composed by send_email for the success status. -/
def successEmail (f : Fields) (file_name file_url : Option String) : EmailMsg :=
  ⟨f.user_email, successSubject f.assignment_name,
   successContent f.user_first_name f.user_last_name f.assignment_name
     file_name file_url f.submission_url f.submission_count f.total_attempts⟩

/-- The tracking row put_item writes for the event fields f. -/
def trackRec (f : Fields) (status : String) : TrackingItem :=
  ⟨trackingKey f.user_email f.assignment_id f.submission_count,
   f.user_email, status, f.assignment_id, f.submission_count⟩

/-- The field extraction of src/app.py lines 120-127: succeeds only
when all eight keys are present. -/
def extractFields (m : Msg) : Option Fields :=
  match m.submission_url, m.user_email, m.user_first_name, m.user_last_name,
      m.assignment_id, m.submission_count, m.total_attempts, m.assignment_name with
  | some su, some ue, some fn, some ln, some ai, some sc, some ta, some an =>
      some ⟨su, ue, fn, ln, ai, sc, ta, an⟩
  | _, _, _, _, _, _, _, _ => none

/-- The object path f-string of src/app.py line 147. -/
def uploadPath (f : Fields) (file_name : String) : String :=
  f.user_first_name ++ "_" ++ f.user_last_name ++ "/" ++ f.assignment_id ++
  "/attempt_" ++ toString f.submission_count ++ "/" ++ file_name

/-- lambda_handler (src/app.py lines 117-218).  Field extraction
happens before the try block, so a missing key raises with no side
effect.  Inside the try block: fetch, then the three-way branch on
(status == 200, is_zipfile); any fault falls to handleException. -/
def lambda_handler (w : World) (event : Msg) : Trace × Option Msg :=
  match extractFields event with
  | none => (Trace.empty, none)
  | some f =>
    let s : Trace := ⟨[f.submission_url], [], [], [], 0, 0⟩
    match w.fetch with
    | none => handleException w s f event
    | some response =>
      let file_name := basename f.submission_url
      if (response.status_code == 200) && response.isZip then
        let path := uploadPath f file_name
        let ru := upload_blob w s response.content path
        if ru.2 then
          let file_url := bucket_base_url ++ "/" ++ w.bucket ++ "/" ++ path
          let r := send_email w ru.1 f.user_email f.user_first_name
            f.user_last_name f.submission_url f.assignment_id (some file_url)
            (some file_name) "success" none f.submission_count
            f.total_attempts f.assignment_name
          if r.2 then (r.1, some event) else handleException w r.1 f event
        else handleException w ru.1 f event
      else if (response.status_code == 200) && !response.isZip then
        let failure_reason := formatFailureReason f.assignment_name file_name
        let r := send_email w s f.user_email f.user_first_name f.user_last_name
          f.submission_url f.assignment_id (some ("")) (some file_name) "failure"
          (some failure_reason) f.submission_count f.total_attempts
          f.assignment_name
        if r.2 then
          let r2 := update_email_tracking w r.1 f.user_email "Failed"
            f.assignment_id f.submission_count
          if r2.2 then (r2.1, some event) else handleException w r2.1 f event
        else handleException w r.1 f event
      else
        let failure_reason := downloadFailureReason f.assignment_name
        let r := send_email w s f.user_email f.user_first_name f.user_last_name
          f.submission_url f.assignment_id (some ("")) (some file_name) "failure"
          (some failure_reason) f.submission_count f.total_attempts
          f.assignment_name
        if r.2 then
          let r2 := update_email_tracking w r.1 f.user_email "Failed"
            f.assignment_id f.submission_count
          if r2.2 then (r2.1, some event) else handleException w r2.1 f event
        else handleException w r.1 f event

/-- The extended-variant scenario event of spec section 8 with every
required key present. -/
def evFull : Msg :=
  ⟨some ("https://x/test.zip"), some ("a@b.com"), some ("A"), some ("B"),
   some ("hw1"), some 1, some 3, some ("HW1")⟩

/-- The fields extracted from evFull. -/
def fFull : Fields :=
  ⟨"https://x/test.zip", "a@b.com", "A", "B", "hw1", 1, 3, "HW1"⟩

/-- The section-8 scenario event exactly as the spec lists it: six keys,
no total_attempts and no assignment_name. -/
def evScenario : Msg :=
  ⟨some ("https://x/test.zip"), some ("a@b.com"), some ("A"), some ("B"),
   some ("hw1"), some 1, none, none⟩

/-- The section-8 scenario event completed with the two keys the
extended variant requires. -/
def evScenarioExt : Msg :=
  ⟨some ("https://x/test.zip"), some ("a@b.com"), some ("A"), some ("B"),
   some ("hw1"), some 1, some 3, some ("hw1")⟩

def zipResponse : Response := ⟨200, "zipbytes", true⟩

def textResponse : Response := ⟨200, "notazip", false⟩

def errorResponse : Response := ⟨404, "zipbytes", true⟩

/-- All collaborators healthy, fetch returns a valid zip. -/
def wAll : World := ⟨some zipResponse, true, fun _ => true, fun _ => true, "bkt"⟩

/-- All collaborators healthy, fetch returns 200 with a non-zip body. -/
def wFmt : World := ⟨some textResponse, true, fun _ => true, fun _ => true, "bkt"⟩

/-- All collaborators healthy, fetch returns 404 (body is valid zip bytes). -/
def wErr : World := ⟨some errorResponse, true, fun _ => true, fun _ => true, "bkt"⟩

/-- Transport fault on the fetch, every other collaborator healthy. -/
def wExc : World := ⟨none, true, fun _ => true, fun _ => true, "bkt"⟩

/-- Transport fault on the fetch and a tracking store that always
raises. -/
def wNoPut : World := ⟨none, true, fun _ => true, fun _ => false, "bkt"⟩

/-- Fetch returns 200 with a non-zip body; only the second put_item call
of the invocation raises. -/
def wPutFault1 : World :=
  ⟨some textResponse, true, fun _ => true, fun n => !(n == 1), "bkt"⟩

theorem substr_mid (x m y : String) : m.data <:+: (x ++ m ++ y).data :=
  ⟨x.data, y.data, by simp [String.data_append]⟩

theorem substr_right (x m : String) : m.data <:+: (x ++ m).data :=
  ⟨x.data, [], by simp [String.data_append]⟩

theorem update_email_tracking_ok (w : World) (s : Trace) (e st a : String) (c : Nat)
    (h : w.putOk s.putIdx = true) :
    update_email_tracking w s e st a c =
      ({ s with
         putIdx := s.putIdx + 1
         tracks := s.tracks ++ [⟨trackingKey e a c, e, st, a, c⟩] }, true) := by
  cases s
  simp [update_email_tracking] at h ⊢
  simp [h]

theorem send_email_all_ok (w : World) (s : Trace)
    (te ufn uln su aid : String) (fu fn : Option String) (st : String)
    (fr : Option String) (sc ta : Nat) (an : String)
    (hput : ∀ n, w.putOk n = true) :
    send_email w s te ufn uln su aid fu fn st fr sc ta an =
      (⟨s.fetches, s.uploads,
        s.emails ++ [⟨te,
          (if st = "success" then successSubject an else errorSubject an),
          (if st = "success" then successContent ufn uln an fn fu su sc ta
           else failureContent ufn uln an fr fn su sc ta)⟩],
        s.tracks ++ [⟨trackingKey te aid sc, te,
          (if w.sendOk s.sendIdx then "Sent" else "Failed"), aid, sc⟩],
        s.sendIdx + 1, s.putIdx + 1⟩, true) := by
  cases s
  cases hs : w.sendOk _ <;>
    simp [send_email, update_email_tracking, hput, hs]

theorem handleException_all_ok (w : World) (s : Trace) (f : Fields) (m : Msg)
    (hput : ∀ n, w.putOk n = true) :
    handleException w s f m =
      (⟨s.fetches, s.uploads,
        s.emails ++ [failureEmail f (some exceptionFailureReason) none],
        s.tracks ++ [trackRec f (if w.sendOk s.sendIdx then "Sent" else "Failed"),
          trackRec f "Failed"],
        s.sendIdx + 1, s.putIdx + 2⟩, some m) := by
  unfold handleException
  rw [send_email_all_ok w s _ _ _ _ _ _ _ _ _ _ _ _ hput]
  cases s
  simp [update_email_tracking, hput, failureEmail, trackRec]

theorem lambda_handler_fetch_fault (w : World) (ev : Msg) (f : Fields)
    (hf : extractFields ev = some f) (hw : w.fetch = none)
    (hput : ∀ n, w.putOk n = true) :
    lambda_handler w ev =
      (⟨[f.submission_url], [],
        [failureEmail f (some exceptionFailureReason) none],
        [trackRec f (if w.sendOk 0 then "Sent" else "Failed"), trackRec f "Failed"],
        1, 2⟩, some ev) := by
  simp only [lambda_handler, hf, hw]
  rw [handleException_all_ok w _ f ev hput]
  simp

theorem lambda_handler_success (w : World) (ev : Msg) (f : Fields) (resp : Response)
    (hf : extractFields ev = some f) (hw : w.fetch = some resp)
    (h200 : resp.status_code = 200) (hz : resp.isZip = true) (hu : w.uploadOk = true)
    (hput : ∀ n, w.putOk n = true) :
    lambda_handler w ev =
      (⟨[f.submission_url],
        [(uploadPath f (basename f.submission_url), resp.content)],
        [successEmail f (some (basename f.submission_url))
          (some (bucket_base_url ++ "/" ++ w.bucket ++ "/" ++
            uploadPath f (basename f.submission_url)))],
        [trackRec f (if w.sendOk 0 then "Sent" else "Failed")],
        1, 1⟩, some ev) := by
  simp only [lambda_handler, hf, hw, h200, hz, hu, upload_blob]
  simp only [beq_self_eq_true, Bool.and_self, if_true, ite_true]
  simp
  rw [send_email_all_ok w _ _ _ _ _ _ _ _ _ _ _ _ _ hput]
  simp [successEmail, trackRec]

theorem lambda_handler_upload_fault (w : World) (ev : Msg) (f : Fields) (resp : Response)
    (hf : extractFields ev = some f) (hw : w.fetch = some resp)
    (h200 : resp.status_code = 200) (hz : resp.isZip = true) (hu : w.uploadOk = false)
    (hput : ∀ n, w.putOk n = true) :
    lambda_handler w ev =
      (⟨[f.submission_url], [],
        [failureEmail f (some exceptionFailureReason) none],
        [trackRec f (if w.sendOk 0 then "Sent" else "Failed"), trackRec f "Failed"],
        1, 2⟩, some ev) := by
  simp only [lambda_handler, hf, hw, h200, hz, hu, upload_blob]
  simp
  rw [handleException_all_ok w _ f ev hput]
  simp

theorem lambda_handler_format_failure (w : World) (ev : Msg) (f : Fields) (resp : Response)
    (hf : extractFields ev = some f) (hw : w.fetch = some resp)
    (h200 : resp.status_code = 200) (hz : resp.isZip = false)
    (hput : ∀ n, w.putOk n = true) :
    lambda_handler w ev =
      (⟨[f.submission_url], [],
        [failureEmail f
          (some (formatFailureReason f.assignment_name (basename f.submission_url)))
          (some (basename f.submission_url))],
        [trackRec f (if w.sendOk 0 then "Sent" else "Failed"), trackRec f "Failed"],
        1, 2⟩, some ev) := by
  simp only [lambda_handler, hf, hw, h200, hz]
  simp only [beq_self_eq_true, Bool.and_false, Bool.and_true, Bool.not_false,
    Bool.false_eq_true, if_false, if_true, ite_true, ite_false]
  rw [send_email_all_ok w _ _ _ _ _ _ _ _ _ _ _ _ _ hput]
  simp [update_email_tracking, hput, failureEmail, trackRec]

theorem lambda_handler_download_failure (w : World) (ev : Msg) (f : Fields) (resp : Response)
    (hf : extractFields ev = some f) (hw : w.fetch = some resp)
    (h200 : resp.status_code ≠ 200)
    (hput : ∀ n, w.putOk n = true) :
    lambda_handler w ev =
      (⟨[f.submission_url], [],
        [failureEmail f (some (downloadFailureReason f.assignment_name))
          (some (basename f.submission_url))],
        [trackRec f (if w.sendOk 0 then "Sent" else "Failed"), trackRec f "Failed"],
        1, 2⟩, some ev) := by
  have hb : (resp.status_code == 200) = false := by simp [h200]
  simp only [lambda_handler, hf, hw, hb, Bool.false_and, Bool.false_eq_true, if_false,
    ite_false]
  rw [send_email_all_ok w _ _ _ _ _ _ _ _ _ _ _ _ _ hput]
  simp [update_email_tracking, hput, failureEmail, trackRec]

theorem extractFields_some_fields (m : Msg) (f : Fields) (h : extractFields m = some f) :
    m.submission_url = some f.submission_url ∧ m.user_email = some f.user_email ∧
    m.user_first_name = some f.user_first_name ∧ m.user_last_name = some f.user_last_name ∧
    m.assignment_id = some f.assignment_id ∧ m.submission_count = some f.submission_count ∧
    m.total_attempts = some f.total_attempts ∧ m.assignment_name = some f.assignment_name := by
  unfold extractFields at h
  split at h
  · cases h
    simp_all
  · cases h

theorem update_ok_tracks_ne_nil (w : World) (s : Trace) (e st a : String) (c : Nat)
    (h : (update_email_tracking w s e st a c).2 = true) :
    (update_email_tracking w s e st a c).1.tracks ≠ [] := by
  cases hp : w.putOk s.putIdx <;> simp [update_email_tracking, hp] at h ⊢

theorem send_email_ok_tracks_ne_nil (w : World) (s : Trace) (te ufn uln su aid : String)
    (fu fn : Option String) (st : String) (fr : Option String) (sc ta : Nat) (an : String)
    (h : (send_email w s te ufn uln su aid fu fn st fr sc ta an).2 = true) :
    (send_email w s te ufn uln su aid fu fn st fr sc ta an).1.tracks ≠ [] := by
  by_cases hst : st = "success" <;>
    simp only [send_email, hst, if_true, if_false, ite_true, ite_false] at h ⊢ <;>
    cases hs : w.sendOk s.sendIdx <;> simp only [hs, ite_true, ite_false] at h ⊢
  all_goals try exact update_ok_tracks_ne_nil _ _ _ _ _ _ h
  all_goals {
    split
    next hc => exact update_ok_tracks_ne_nil _ _ _ _ _ _ hc
    next hc =>
      rw [if_neg hc] at h
      exact update_ok_tracks_ne_nil _ _ _ _ _ _ h }

theorem handleException_shape (w : World) (s : Trace) (f : Fields) (m : Msg) :
    (handleException w s f m).2 = none ∨
      ((handleException w s f m).2 = some m ∧ (handleException w s f m).1.tracks ≠ []) := by
  simp only [handleException]
  split
  next hsend =>
    split
    next hupd => exact Or.inr ⟨rfl, update_ok_tracks_ne_nil _ _ _ _ _ _ hupd⟩
    next hupd => exact Or.inl rfl
  next hsend => exact Or.inl rfl

theorem lambda_handler_shape (w : World) (ev : Msg) :
    (lambda_handler w ev).2 = none ∨
      ((lambda_handler w ev).2 = some ev ∧ (lambda_handler w ev).1.tracks ≠ []) := by
  cases hx : extractFields ev with
  | none => simp only [lambda_handler, hx]; exact Or.inl trivial
  | some f =>
    simp only [lambda_handler, hx]
    cases hfe : w.fetch with
    | none =>
      simp only [hfe]
      exact handleException_shape _ _ _ _
    | some resp =>
      simp only [hfe]
      split
      next hc1 =>
        split
        next hup =>
          split
          next hsend =>
            exact Or.inr ⟨rfl, send_email_ok_tracks_ne_nil _ _ _ _ _ _ _ _ _ _ _ _ _ _ hsend⟩
          next hsend => exact handleException_shape _ _ _ _
        next hup => exact handleException_shape _ _ _ _
      next hc1 =>
        split
        next hc2 =>
          split
          next hsend =>
            split
            next hupd => exact Or.inr ⟨rfl, update_ok_tracks_ne_nil _ _ _ _ _ _ hupd⟩
            next hupd => exact handleException_shape _ _ _ _
          next hsend => exact handleException_shape _ _ _ _
        next hc2 =>
          split
          next hsend =>
            split
            next hupd => exact Or.inr ⟨rfl, update_ok_tracks_ne_nil _ _ _ _ _ _ hupd⟩
            next hupd => exact handleException_shape _ _ _ _
          next hsend => exact handleException_shape _ _ _ _

theorem update_email_tracking_emails (w : World) (s : Trace) (e st a : String) (c : Nat) :
    (update_email_tracking w s e st a c).1.emails = s.emails := by
  cases hp : w.putOk s.putIdx <;> simp [update_email_tracking, hp]

theorem send_email_emails (w : World) (s : Trace) (te ufn uln su aid : String)
    (fu fn : Option String) (st : String) (fr : Option String) (sc ta : Nat) (an : String) :
    (send_email w s te ufn uln su aid fu fn st fr sc ta an).1.emails =
      s.emails ++ [⟨te,
        (if st = "success" then successSubject an else errorSubject an),
        (if st = "success" then successContent ufn uln an fn fu su sc ta
         else failureContent ufn uln an fr fn su sc ta)⟩] := by
  by_cases hst : st = "success" <;>
    cases hs : w.sendOk s.sendIdx <;>
    simp only [send_email, hst, hs, if_true, if_false, ite_true, ite_false] <;>
    try { simp [update_email_tracking_emails] }
  all_goals {
    split <;> simp [update_email_tracking_emails] }

/-- C1 as stated is false: on the format-failure branch with healthy
collaborators the invocation completes and writes two tracking records,
not one (src/app.py line 111 inside send_email, then line 182). -/
theorem c1_counterexample :
    (lambda_handler wFmt evFull).2 = some evFull ∧
    ¬ (lambda_handler wFmt evFull).1.tracks.length = 1 := by
  constructor
  · rfl
  · decide

/-- C1 amended: every invocation of lambda_handler that runs to
completion has written at least one tracking record, whichever branch
was taken. -/
theorem c1_completion_writes_tracking (w : World) (ev : Msg)
    (h : ((lambda_handler w ev).2).isSome = true) :
    (lambda_handler w ev).1.tracks ≠ [] := by
  rcases lambda_handler_shape w ev with hn | ⟨_, ht⟩
  · rw [hn] at h
    cases h
  · exact ht

theorem c1_witness :
    ((lambda_handler wFmt evFull).2).isSome = true ∧
    (lambda_handler wFmt evFull).1.tracks ≠ [] :=
  ⟨by decide, c1_completion_writes_tracking wFmt evFull (by decide)⟩

/-- C2 as stated is false: a fault raised inside the except block
itself is not caught.  With a transport fault on the fetch and a
tracking store that always raises, the invocation propagates the fault
(modelled as result none) even though the payload parsed. -/
theorem c2_counterexample :
    extractFields evFull = some fFull ∧ (lambda_handler wNoPut evFull).2 = none := by
  constructor <;> rfl

/-- C2 amended: once the payload has parsed, and provided every
tracking-store write returns normally, every internal fault is caught
and lambda_handler returns normally. -/
theorem c2_no_throw_when_tracking_ok (w : World) (ev : Msg) (f : Fields)
    (hf : extractFields ev = some f) (hput : ∀ n, w.putOk n = true) :
    (lambda_handler w ev).2 = some ev := by
  cases hfe : w.fetch with
  | none => rw [lambda_handler_fetch_fault w ev f hf hfe hput]
  | some resp =>
    by_cases h200 : resp.status_code = 200
    · cases hz : resp.isZip with
      | true =>
        cases hu : w.uploadOk with
        | true => rw [lambda_handler_success w ev f resp hf hfe h200 hz hu hput]
        | false => rw [lambda_handler_upload_fault w ev f resp hf hfe h200 hz hu hput]
      | false => rw [lambda_handler_format_failure w ev f resp hf hfe h200 hz hput]
    · rw [lambda_handler_download_failure w ev f resp hf hfe h200 hput]

theorem c2_witness :
    extractFields evFull = some fFull ∧ (lambda_handler wExc evFull).2 = some evFull :=
  ⟨rfl, c2_no_throw_when_tracking_ok wExc evFull fFull rfl (fun _ => rfl)⟩

/-- C3 as stated is false: when the tracking write after a successful
failure-branch send raises, control falls into the except block, which
attempts a second email.  wPutFault1 makes exactly the second put_item
call raise; the invocation completes normally having attempted two
emails. -/
theorem c3_counterexample :
    (lambda_handler wPutFault1 evFull).2 = some evFull ∧
    (lambda_handler wPutFault1 evFull).1.emails.length = 2 := by
  constructor <;> rfl

/-- C3 amended: provided every tracking-store write returns normally,
every invocation whose payload parses attempts exactly one email,
whichever branch is taken. -/
theorem c3_exactly_one_email_when_tracking_ok (w : World) (ev : Msg) (f : Fields)
    (hf : extractFields ev = some f) (hput : ∀ n, w.putOk n = true) :
    (lambda_handler w ev).1.emails.length = 1 := by
  cases hfe : w.fetch with
  | none => rw [lambda_handler_fetch_fault w ev f hf hfe hput]; rfl
  | some resp =>
    by_cases h200 : resp.status_code = 200
    · cases hz : resp.isZip with
      | true =>
        cases hu : w.uploadOk with
        | true => rw [lambda_handler_success w ev f resp hf hfe h200 hz hu hput]; rfl
        | false => rw [lambda_handler_upload_fault w ev f resp hf hfe h200 hz hu hput]; rfl
      | false => rw [lambda_handler_format_failure w ev f resp hf hfe h200 hz hput]; rfl
    · rw [lambda_handler_download_failure w ev f resp hf hfe h200 hput]; rfl

theorem c3_witness :
    extractFields evFull = some fFull ∧
    (lambda_handler wAll evFull).1.emails.length = 1 :=
  ⟨rfl, c3_exactly_one_email_when_tracking_ok wAll evFull fFull rfl (fun _ => rfl)⟩

/-- C8: whenever lambda_handler returns normally, the returned value is
the parsed inbound message itself, unchanged. -/
theorem c8_returns_parsed_message (w : World) (ev m : Msg)
    (h : (lambda_handler w ev).2 = some m) : m = ev := by
  rcases lambda_handler_shape w ev with hn | ⟨hs, _⟩
  · rw [hn] at h
    cases h
  · rw [hs] at h
    exact (Option.some.inj h).symm

theorem c8_witness :
    (lambda_handler wAll evFull).2 = some evFull ∧ evFull = evFull :=
  ⟨rfl, c8_returns_parsed_message wAll evFull evFull rfl⟩

/-- C9: if any of the eight required keys is absent from the parsed
message, lambda_handler raises before performing any side effect: no
fetch, no upload, no email attempt and no tracking write. -/
theorem c9_missing_key_no_side_effects (w : World) (ev : Msg)
    (h : ev.submission_url = none ∨ ev.user_email = none ∨
      ev.user_first_name = none ∨ ev.user_last_name = none ∨
      ev.assignment_id = none ∨ ev.submission_count = none ∨
      ev.total_attempts = none ∨ ev.assignment_name = none) :
    lambda_handler w ev = (Trace.empty, none) := by
  have hx : extractFields ev = none := by
    cases hE : extractFields ev with
    | none => rfl
    | some f =>
      have hall := extractFields_some_fields ev f hE
      rcases h with h | h | h | h | h | h | h | h <;> rw [h] at hall <;> simp_all
  simp [lambda_handler, hx]

theorem c9_witness :
    (evScenario.submission_url = none ∨ evScenario.user_email = none ∨
      evScenario.user_first_name = none ∨ evScenario.user_last_name = none ∨
      evScenario.assignment_id = none ∨ evScenario.submission_count = none ∨
      evScenario.total_attempts = none ∨ evScenario.assignment_name = none) ∧
    lambda_handler wAll evScenario = (Trace.empty, none) :=
  ⟨by decide, c9_missing_key_no_side_effects wAll evScenario (by decide)⟩

/-- C4: when the fetch returns a non-200 status, whatever the body is,
no object-storage write occurs, the one email sent carries the
download-error failure reason, and both tracking writes use the event
key with the last one recording Failed (tracking store assumed
healthy). -/
theorem c4_non200_failure_behavior (w : World) (ev : Msg) (f : Fields) (resp : Response)
    (hf : extractFields ev = some f) (hw : w.fetch = some resp)
    (h200 : resp.status_code ≠ 200) (hput : ∀ n, w.putOk n = true) :
    (lambda_handler w ev).1.uploads = [] ∧
    (lambda_handler w ev).1.emails.map EmailMsg.content =
      [failureContent f.user_first_name f.user_last_name f.assignment_name
        (some (downloadFailureReason f.assignment_name))
        (some (basename f.submission_url)) f.submission_url
        f.submission_count f.total_attempts] ∧
    (downloadFailureReason f.assignment_name).data <:+:
      (failureContent f.user_first_name f.user_last_name f.assignment_name
        (some (downloadFailureReason f.assignment_name))
        (some (basename f.submission_url)) f.submission_url
        f.submission_count f.total_attempts).data ∧
    (lambda_handler w ev).1.tracks.map TrackingItem.id =
      [trackingKey f.user_email f.assignment_id f.submission_count,
       trackingKey f.user_email f.assignment_id f.submission_count] ∧
    ((lambda_handler w ev).1.tracks.map TrackingItem.status).getLast? =
      some ("Failed") := by
  rw [lambda_handler_download_failure w ev f resp hf hw h200 hput]
  refine ⟨rfl, ?_, ?_, ?_, ?_⟩
  · simp [failureEmail]
  · simp only [failureContent, pyStr, Option.getD_some]
    exact substr_mid _ _ _
  · simp [trackRec]
  · rfl

theorem c4_witness :
    (lambda_handler wErr evFull).1.uploads = [] ∧
    (lambda_handler wErr evFull).1.emails.map EmailMsg.content =
      [failureContent fFull.user_first_name fFull.user_last_name fFull.assignment_name
        (some (downloadFailureReason fFull.assignment_name))
        (some (basename fFull.submission_url)) fFull.submission_url
        fFull.submission_count fFull.total_attempts] ∧
    (downloadFailureReason fFull.assignment_name).data <:+:
      (failureContent fFull.user_first_name fFull.user_last_name fFull.assignment_name
        (some (downloadFailureReason fFull.assignment_name))
        (some (basename fFull.submission_url)) fFull.submission_url
        fFull.submission_count fFull.total_attempts).data ∧
    (lambda_handler wErr evFull).1.tracks.map TrackingItem.id =
      [trackingKey fFull.user_email fFull.assignment_id fFull.submission_count,
       trackingKey fFull.user_email fFull.assignment_id fFull.submission_count] ∧
    ((lambda_handler wErr evFull).1.tracks.map TrackingItem.status).getLast? =
      some ("Failed") :=
  c4_non200_failure_behavior wErr evFull fFull errorResponse rfl rfl
    (by decide) (fun _ => rfl)

/-- C5: when the fetch returns 200 with a body that is not a valid zip
archive, no object-storage write occurs, the one email sent carries the
format-failure reason telling the user the file is not a .zip file, and
both tracking writes use the event key with the last one recording
Failed (tracking store assumed healthy). -/
theorem c5_format_failure_behavior (w : World) (ev : Msg) (f : Fields) (resp : Response)
    (hf : extractFields ev = some f) (hw : w.fetch = some resp)
    (h200 : resp.status_code = 200) (hz : resp.isZip = false)
    (hput : ∀ n, w.putOk n = true) :
    (lambda_handler w ev).1.uploads = [] ∧
    (lambda_handler w ev).1.emails.map EmailMsg.content =
      [failureContent f.user_first_name f.user_last_name f.assignment_name
        (some (formatFailureReason f.assignment_name (basename f.submission_url)))
        (some (basename f.submission_url)) f.submission_url
        f.submission_count f.total_attempts] ∧
    ("is not a .zip file").data <:+:
      (failureContent f.user_first_name f.user_last_name f.assignment_name
        (some (formatFailureReason f.assignment_name (basename f.submission_url)))
        (some (basename f.submission_url)) f.submission_url
        f.submission_count f.total_attempts).data ∧
    (lambda_handler w ev).1.tracks.map TrackingItem.id =
      [trackingKey f.user_email f.assignment_id f.submission_count,
       trackingKey f.user_email f.assignment_id f.submission_count] ∧
    ((lambda_handler w ev).1.tracks.map TrackingItem.status).getLast? =
      some ("Failed") := by
  rw [lambda_handler_format_failure w ev f resp hf hw h200 hz hput]
  refine ⟨rfl, ?_, ?_, ?_, ?_⟩
  · simp [failureEmail]
  · have h1 : ("is not a .zip file").data <:+:
        ("') is not a .zip file. Please submit the file in .zip format.").data := by
      decide
    have h2 : ("') is not a .zip file. Please submit the file in .zip format.").data <:+:
        (formatFailureReason f.assignment_name (basename f.submission_url)).data := by
      simp only [formatFailureReason]
      exact substr_right _ _
    have h3 : (formatFailureReason f.assignment_name (basename f.submission_url)).data <:+:
        (failureContent f.user_first_name f.user_last_name f.assignment_name
          (some (formatFailureReason f.assignment_name (basename f.submission_url)))
          (some (basename f.submission_url)) f.submission_url
          f.submission_count f.total_attempts).data := by
      simp only [failureContent, pyStr, Option.getD_some]
      exact substr_mid _ _ _
    exact h1.trans (h2.trans h3)
  · simp [trackRec]
  · rfl

theorem c5_witness :
    (lambda_handler wFmt evFull).1.uploads = [] ∧
    (lambda_handler wFmt evFull).1.emails.map EmailMsg.content =
      [failureContent fFull.user_first_name fFull.user_last_name fFull.assignment_name
        (some (formatFailureReason fFull.assignment_name (basename fFull.submission_url)))
        (some (basename fFull.submission_url)) fFull.submission_url
        fFull.submission_count fFull.total_attempts] ∧
    ("is not a .zip file").data <:+:
      (failureContent fFull.user_first_name fFull.user_last_name fFull.assignment_name
        (some (formatFailureReason fFull.assignment_name (basename fFull.submission_url)))
        (some (basename fFull.submission_url)) fFull.submission_url
        fFull.submission_count fFull.total_attempts).data ∧
    (lambda_handler wFmt evFull).1.tracks.map TrackingItem.id =
      [trackingKey fFull.user_email fFull.assignment_id fFull.submission_count,
       trackingKey fFull.user_email fFull.assignment_id fFull.submission_count] ∧
    ((lambda_handler wFmt evFull).1.tracks.map TrackingItem.status).getLast? =
      some ("Failed") :=
  c5_format_failure_behavior wFmt evFull fFull textResponse rfl rfl rfl rfl
    (fun _ => rfl)

/-- C7: every success email composed by send_email for an event with
submission_count 2 and total_attempts 5 has the literal substring 2/5
in its body. -/
theorem c7_success_email_contains_attempt_fraction (w : World) (s : Trace)
    (te ufn uln su aid : String) (fu fn : Option String) (fr : Option String)
    (an : String) :
    (send_email w s te ufn uln su aid fu fn "success" fr 2 5 an).1.emails =
      s.emails ++ [⟨te, successSubject an, successContent ufn uln an fn fu su 2 5⟩] ∧
    ("2/5").data <:+: (successContent ufn uln an fn fu su 2 5).data := by
  constructor
  · rw [send_email_emails]
    simp
  · have h25 : (toString (2 : Nat) ++ "/" ++ toString (5 : Nat) : String) = "2/5" := rfl
    simp only [successContent]
    rw [h25]
    exact substr_mid _ _ _

/-- C10: the tracking status written inside send_email depends only on
the outcome of the sg.send call, Sent if it returned and Failed if it
raised (tracking store assumed healthy); consequently a format-failure
invocation whose failure email sends successfully records Sent first
and Failed second. -/
theorem c10_tracking_status_follows_send_outcome (w : World) (s : Trace)
    (te ufn uln su aid : String) (fu fn : Option String) (st : String)
    (fr : Option String) (sc ta : Nat) (an : String)
    (hput : ∀ n, w.putOk n = true) :
    ((send_email w s te ufn uln su aid fu fn st fr sc ta an).1.tracks =
      s.tracks ++ [⟨trackingKey te aid sc, te,
        (if w.sendOk s.sendIdx then "Sent" else "Failed"), aid, sc⟩]) ∧
    (∀ ev f resp, extractFields ev = some f → w.fetch = some resp →
      resp.status_code = 200 → resp.isZip = false → w.sendOk 0 = true →
      (lambda_handler w ev).1.tracks.map TrackingItem.status = ["Sent", "Failed"]) := by
  constructor
  · rw [send_email_all_ok w s te ufn uln su aid fu fn st fr sc ta an hput]
  · intro ev f resp hf hw h200 hz hs0
    rw [lambda_handler_format_failure w ev f resp hf hw h200 hz hput]
    simp [trackRec, hs0]

theorem c10_witness :
    ((send_email wAll Trace.empty "a@b.com" "A" "B" "u" "hw1" none none "failure"
        none 1 3 "HW1").1.tracks =
      Trace.empty.tracks ++ [⟨trackingKey "a@b.com" "hw1" 1, "a@b.com",
        (if wAll.sendOk Trace.empty.sendIdx then "Sent" else "Failed"), "hw1", 1⟩]) ∧
    (lambda_handler wFmt evFull).1.tracks.map TrackingItem.status = ["Sent", "Failed"] := by
  have h1 := c10_tracking_status_follows_send_outcome wAll Trace.empty "a@b.com" "A"
    "B" "u" "hw1" none none "failure" none 1 3 "HW1" (fun _ => rfl)
  have h2 := c10_tracking_status_follows_send_outcome wFmt Trace.empty "a@b.com" "A"
    "B" "u" "hw1" none none "failure" none 1 3 "HW1" (fun _ => rfl)
  exact ⟨h1.1, h2.2 evFull fFull textResponse rfl rfl rfl rfl rfl⟩

/-- C6 as stated is false: the scenario event carries only six keys,
but the code of src/app.py lines 126-127 also extracts total_attempts
and assignment_name, so the invocation raises KeyError before any side
effect: nothing is uploaded and no tracking record is written, in
particular none with status Sent. -/
theorem c6_counterexample :
    (lambda_handler wAll evScenario).1.tracks = [] ∧
    (lambda_handler wAll evScenario).1.uploads = [] ∧
    (lambda_handler wAll evScenario).2 = none :=
  ⟨rfl, rfl, rfl⟩

/-- C6 amended: with total_attempts and assignment_name also present,
the scenario uploads the body to A_B/hw1/attempt_1/test.zip and writes
one tracking record under key a@b.com__hw1__1 with status Sent. -/
theorem c6_scenario_with_required_keys :
    (lambda_handler wAll evScenarioExt).1.uploads =
      [("A_B/hw1/attempt_1/test.zip", "zipbytes")] ∧
    (lambda_handler wAll evScenarioExt).1.tracks =
      [⟨"a@b.com__hw1__1", "a@b.com", "Sent", "hw1", 1⟩] ∧
    (lambda_handler wAll evScenarioExt).2 = some evScenarioExt := by
  refine ⟨by decide, by decide, by decide⟩
